import Mathlib

/-
  Verification of the loxberry-velux bridge (TypeScript sources) against its
  natural-language specification.

  Shallow embedding conventions:
  * JavaScript numbers are modelled as exact rationals (ℚ); integer-valued
    results (Math.round) are modelled as ℤ.  JS Math.round x = ⌊x + 1/2⌋
    (halves round toward +∞).
  * JS Map<number, T> is modelled as an association list List (ℕ × T) with
    first-match lookup and in-place replacement on set.
  * EventEmitter effects are modelled by returning the list of emitted events.
  * Filesystem effects of DeviceRegistry.save are modelled as a list of
    filesystem operations.
-/

set_option autoImplicit false

namespace LoxberryVelux

/- ### Position codec (src/types/index.ts, klfPositionToPercent / percentToKlfPosition) -/

/-- JS Math.round: round half toward positive infinity. -/
def jsRound (q : ℚ) : ℤ := ⌊q + 1 / 2⌋

/-- Convert KLF-200 position (0-1) to percentage (0-100):
    Math.round((1 - klfPosition) * 100)  (src/types/index.ts line 220). -/
def klfPositionToPercent (klfPosition : ℚ) : ℤ :=
  jsRound ((1 - klfPosition) * 100)

/-- Convert percentage (0-100) to KLF-200 position (0-1):
    1 - (percent / 100)  (src/types/index.ts line 227). -/
def percentToKlfPosition (percent : ℚ) : ℚ :=
  1 - percent / 100

theorem jsRound_intCast (z : ℤ) : jsRound (z : ℚ) = z := by
  unfold jsRound
  rw [Int.floor_int_add]
  norm_num

theorem jsRound_mono {p q : ℚ} (h : p ≤ q) : jsRound p ≤ jsRound q := by
  unfold jsRound
  exact Int.floor_le_floor (by linarith)

theorem jsRound_nonneg {q : ℚ} (h : 0 ≤ q) : 0 ≤ jsRound q := by
  unfold jsRound
  positivity

theorem jsRound_le_100 {q : ℚ} (h : q ≤ 100) : jsRound q ≤ 100 := by
  have : jsRound q ≤ jsRound 100 := jsRound_mono h
  have h100 : jsRound (100 : ℚ) = 100 := by
    have := jsRound_intCast 100
    norm_num at this ⊢
    exact_mod_cast this
  omega

theorem klfPositionToPercent_bounds {q : ℚ} (h0 : 0 ≤ q) (h1 : q ≤ 1) :
    0 ≤ klfPositionToPercent q ∧ klfPositionToPercent q ≤ 100 := by
  unfold klfPositionToPercent
  constructor
  · exact jsRound_nonneg (by nlinarith)
  · exact jsRound_le_100 (by nlinarith)

theorem klfPositionToPercent_anti {p q : ℚ} (h : p ≤ q) :
    klfPositionToPercent q ≤ klfPositionToPercent p := by
  unfold klfPositionToPercent
  exact jsRound_mono (by nlinarith)

/-- C2: for every integer p in [0,100], the round trip
    klfPositionToPercent (percentToKlfPosition p) returns exactly p. -/
theorem roundtrip_percent (p : ℤ) (h0 : 0 ≤ p) (h1 : p ≤ 100) :
    klfPositionToPercent (percentToKlfPosition (p : ℚ)) = p := by
  unfold klfPositionToPercent percentToKlfPosition
  have harg : (1 - (1 - (p : ℚ) / 100)) * 100 = (p : ℚ) := by ring
  rw [harg]
  exact jsRound_intCast p

theorem roundtrip_percent_witness :
    klfPositionToPercent (percentToKlfPosition (42 : ℚ)) = 42 := by
  have h := roundtrip_percent 42 (by decide) (by decide)
  norm_num at h ⊢
  exact_mod_cast h

/-- C6 counterexample: klfPositionToPercent does not clamp.  At raw input 2 it
    returns -100, which lies outside [0,100], contradicting the claimed
    clamping to [0,100]. -/
theorem klfPositionToPercent_no_clamp :
    klfPositionToPercent 2 = -100 ∧ ¬ (0 ≤ klfPositionToPercent 2) := by
  have h : klfPositionToPercent 2 = -100 := by
    have h1 : ((1 : ℚ) - 2) * 100 = ((-100 : ℤ) : ℚ) := by norm_num
    unfold klfPositionToPercent
    rw [h1, jsRound_intCast]
  exact ⟨h, by rw [h]; decide⟩

/-- C6 (amended): klfPositionToPercent raw = round ((1 - raw) * 100) with NO
    clamping; the result is an integer in [0,100] whenever raw lies in [0,1],
    but falls outside [0,100] for raw outside [0,1]. -/
theorem klfPositionToPercent_in_range {raw : ℚ} (h0 : 0 ≤ raw) (h1 : raw ≤ 1) :
    0 ≤ klfPositionToPercent raw ∧ klfPositionToPercent raw ≤ 100 :=
  klfPositionToPercent_bounds h0 h1

theorem klfPositionToPercent_in_range_witness :
    0 ≤ klfPositionToPercent (1 / 2) ∧ klfPositionToPercent (1 / 2) ≤ 100 :=
  klfPositionToPercent_in_range (by norm_num) (by norm_num)

/- ### Device model (src/types/index.ts, DeviceState and friends) -/

inductive DeviceType where
  | window
  | blind
  | shutter
  | awning
  | garage
  | gate
  | lock
  | unknown
deriving DecidableEq, Repr

/-- DeviceState (src/types/index.ts lines 18-32).  The Date field lastUpdate is
    modelled as a millisecond timestamp. -/
structure DeviceState where
  nodeId : ℕ
  name : String
  type : DeviceType
  position : ℤ
  targetPosition : ℤ
  moving : Bool
  online : Bool
  error : Option String
  limitationMin : ℤ
  limitationMax : ℤ
  serialNumber : String
  productType : ℕ
  lastUpdate : ℕ
deriving DecidableEq, Repr

structure DeviceStateChangeEvent where
  nodeId : ℕ
  previousState : Option DeviceState
  currentState : DeviceState
deriving DecidableEq, Repr

/- ### Device registry (src/lib/device-registry.ts) -/

/-- DeviceRegistry.hasStateChanged (device-registry.ts lines 175-184):
    compares exactly the six semantic fields. -/
def hasStateChanged (prev curr : DeviceState) : Bool :=
  prev.position != curr.position ||
  prev.targetPosition != curr.targetPosition ||
  prev.moving != curr.moving ||
  prev.online != curr.online ||
  prev.error != curr.error ||
  prev.name != curr.name

/-- JS Map.set: replace the entry in place when the key exists, append otherwise. -/
def mapSet (k : ℕ) (v : DeviceState) : List (ℕ × DeviceState) → List (ℕ × DeviceState)
  | [] => [(k, v)]
  | (k2, v2) :: rest => if k2 = k then (k, v) :: rest else (k2, v2) :: mapSet k v rest

/-- Registry state: the devices Map and the dirty flag.  (The scenes Map, the
    debounced save timer and persistence are not needed for the update claims;
    markDirty is modelled as setting the dirty flag.) -/
structure RegistryState where
  devices : List (ℕ × DeviceState)
  dirty : Bool
deriving DecidableEq, Repr

/-- getAllDevices: Array.from(this.devices.values()). -/
def getAllDevices (devices : List (ℕ × DeviceState)) : List DeviceState :=
  devices.map Prod.snd

/-- DeviceRegistry.updateDevice (device-registry.ts lines 63-87).  Returns the
    new registry state and the list of emitted deviceStateChanged events.
    Source: previousState = devices.get(nodeId) || null; if previousState and
    not hasStateChanged, return (no store, no markDirty, no event); otherwise
    set, markDirty, emit with the previous state (null when absent). -/
def updateDevice (r : RegistryState) (state : DeviceState) :
    RegistryState × List DeviceStateChangeEvent :=
  match r.devices.lookup state.nodeId with
  | some previousState =>
    if hasStateChanged previousState state then
      ({ devices := mapSet state.nodeId state r.devices, dirty := true },
       [{ nodeId := state.nodeId, previousState := some previousState, currentState := state }])
    else
      (r, [])
  | none =>
    ({ devices := mapSet state.nodeId state r.devices, dirty := true },
     [{ nodeId := state.nodeId, previousState := none, currentState := state }])

/-- Events emitted by DeviceRegistry.updateDevices. -/
inductive RegistryEvent where
  | stateChanged (event : DeviceStateChangeEvent)
  | devicesUpdated (devices : List DeviceState)
deriving DecidableEq, Repr

def isStateChanged : RegistryEvent → Bool
  | .stateChanged _ => true
  | .devicesUpdated _ => false

/-- The for-loop body of DeviceRegistry.updateDevices (lines 93-106): for each
    incoming state, look up the previous entry; when absent or changed, set and
    emit a stateChanged event; otherwise keep the stored entry. -/
def updateDevicesLoop : List (ℕ × DeviceState) → List DeviceState →
    List (ℕ × DeviceState) × List RegistryEvent
  | m, [] => (m, [])
  | m, state :: rest =>
    match m.lookup state.nodeId with
    | some previousState =>
      if hasStateChanged previousState state then
        let step := updateDevicesLoop (mapSet state.nodeId state m) rest
        (step.1,
         RegistryEvent.stateChanged
           { nodeId := state.nodeId, previousState := some previousState, currentState := state }
           :: step.2)
      else
        updateDevicesLoop m rest
    | none =>
      let step := updateDevicesLoop (mapSet state.nodeId state m) rest
      (step.1,
       RegistryEvent.stateChanged
         { nodeId := state.nodeId, previousState := none, currentState := state }
         :: step.2)

/-- DeviceRegistry.updateDevices (device-registry.ts lines 92-110): loop over
    the incoming states, then markDirty and emit one devicesUpdated event with
    getAllDevices(). -/
def updateDevices (r : RegistryState) (states : List DeviceState) :
    RegistryState × List RegistryEvent :=
  let step := updateDevicesLoop r.devices states
  ({ devices := step.1, dirty := true },
   step.2 ++ [RegistryEvent.devicesUpdated (getAllDevices step.1)])

/- Sample concrete states used by witnesses and counterexamples. -/

def sampleDevice : DeviceState :=
  { nodeId := 5, name := "Roof Window", type := DeviceType.window,
    position := 40, targetPosition := 40, moving := false, online := true,
    error := none, limitationMin := 0, limitationMax := 100,
    serialNumber := "00ff", productType := 4, lastUpdate := 1000 }

/-- Same semantic fields as sampleDevice, different lastUpdate, limits, serial. -/
def sampleDeviceTouched : DeviceState :=
  { sampleDevice with lastUpdate := 2000, limitationMin := 5, serialNumber := "00aa" }

def sampleRegistry : RegistryState :=
  { devices := [(5, sampleDevice)], dirty := false }

/- Registry lemmas. -/

theorem hasStateChanged_iff (p c : DeviceState) :
    hasStateChanged p c = true ↔
      (p.position ≠ c.position ∨ p.targetPosition ≠ c.targetPosition ∨
       p.moving ≠ c.moving ∨ p.online ≠ c.online ∨
       p.error ≠ c.error ∨ p.name ≠ c.name) := by
  unfold hasStateChanged
  simp [Bool.or_eq_true, bne_iff_ne]
  tauto

theorem hasStateChanged_eq_false (p c : DeviceState) :
    hasStateChanged p c = false ↔
      (p.position = c.position ∧ p.targetPosition = c.targetPosition ∧
       p.moving = c.moving ∧ p.online = c.online ∧
       p.error = c.error ∧ p.name = c.name) := by
  rw [← Bool.not_eq_true, hasStateChanged_iff]
  tauto

/-- C1: when a previous entry exists, updateDevice emits a stateChanged event
    iff one of the six semantic fields (position, targetPosition, moving,
    online, error, name) differs; when all six are equal the call is a strict
    no-op (same registry state, dirty flag untouched, no event); when no
    previous entry exists the event is emitted with previousState none. -/
theorem updateDevice_spec (r : RegistryState) (state : DeviceState) :
    (∀ previousState, r.devices.lookup state.nodeId = some previousState →
      (((updateDevice r state).2 ≠ []) ↔
        (previousState.position ≠ state.position ∨
         previousState.targetPosition ≠ state.targetPosition ∨
         previousState.moving ≠ state.moving ∨
         previousState.online ≠ state.online ∨
         previousState.error ≠ state.error ∨
         previousState.name ≠ state.name)) ∧
      ((previousState.position = state.position ∧
        previousState.targetPosition = state.targetPosition ∧
        previousState.moving = state.moving ∧
        previousState.online = state.online ∧
        previousState.error = state.error ∧
        previousState.name = state.name) →
        updateDevice r state = (r, [])) ∧
      (hasStateChanged previousState state = true →
        (updateDevice r state).2 =
          [{ nodeId := state.nodeId, previousState := some previousState,
             currentState := state }] ∧
        (updateDevice r state).1.dirty = true)) ∧
    (r.devices.lookup state.nodeId = none →
      (updateDevice r state).2 =
        [{ nodeId := state.nodeId, previousState := none, currentState := state }] ∧
      (updateDevice r state).1.dirty = true) := by
  constructor
  · intro previousState hlk
    refine ⟨?_, ?_, ?_⟩
    · rw [← hasStateChanged_iff]
      unfold updateDevice
      rw [hlk]
      cases h : hasStateChanged previousState state <;> simp [h]
    · intro heq
      have h : hasStateChanged previousState state = false :=
        (hasStateChanged_eq_false previousState state).mpr heq
      unfold updateDevice
      rw [hlk]
      simp [h]
    · intro h
      unfold updateDevice
      rw [hlk]
      simp [h]
  · intro hlk
    unfold updateDevice
    rw [hlk]
    simp

theorem updateDevice_spec_witness :
    updateDevice sampleRegistry sampleDeviceTouched = (sampleRegistry, []) := by
  have h := (updateDevice_spec sampleRegistry sampleDeviceTouched).1 sampleDevice (by decide)
  exact h.2.1 (by decide)

/-- C8 counterexample: sampleDeviceTouched equals the stored sampleDevice on
    all six semantic fields but differs in lastUpdate, limitationMin and
    serialNumber; updateDevice stores nothing (the old entry stays) and emits
    nothing, contradicting the claim that the new values are stored. -/
theorem updateDevice_nonsemantic_discarded :
    (updateDevice sampleRegistry sampleDeviceTouched).1.devices.lookup 5 = some sampleDevice ∧
    sampleDevice.lastUpdate ≠ sampleDeviceTouched.lastUpdate ∧
    sampleDevice.limitationMin ≠ sampleDeviceTouched.limitationMin ∧
    sampleDevice.serialNumber ≠ sampleDeviceTouched.serialNumber ∧
    (updateDevice sampleRegistry sampleDeviceTouched).2 = [] := by
  decide

/-- C8 (amended): when the incoming state agrees with the stored entry on all
    six semantic fields, updateDevice is a complete no-op: the differing
    non-semantic fields (lastUpdate, limitation values, serialNumber) are NOT
    stored, and no stateChanged event is emitted. -/
theorem updateDevice_nonsemantic_noop (r : RegistryState) (state previousState : DeviceState)
    (hlk : r.devices.lookup state.nodeId = some previousState)
    (heq : previousState.position = state.position ∧
           previousState.targetPosition = state.targetPosition ∧
           previousState.moving = state.moving ∧
           previousState.online = state.online ∧
           previousState.error = state.error ∧
           previousState.name = state.name) :
    updateDevice r state = (r, []) := by
  have h : hasStateChanged previousState state = false :=
    (hasStateChanged_eq_false previousState state).mpr heq
  unfold updateDevice
  rw [hlk]
  simp [h]

theorem updateDevice_nonsemantic_noop_witness :
    (updateDevice sampleRegistry sampleDeviceTouched).1 = sampleRegistry ∧
    (updateDevice sampleRegistry sampleDeviceTouched).2 = [] := by
  have h := updateDevice_nonsemantic_noop sampleRegistry sampleDeviceTouched sampleDevice
    (by decide) (by decide)
  rw [h]
  exact ⟨rfl, rfl⟩

theorem lookup_mapSet_self (k : ℕ) (v : DeviceState) (m : List (ℕ × DeviceState)) :
    (mapSet k v m).lookup k = some v := by
  induction m with
  | nil => simp [mapSet, List.lookup]
  | cons kv rest ih =>
    obtain ⟨k2, v2⟩ := kv
    by_cases h : k2 = k
    · subst h
      simp [mapSet, List.lookup]
    · have hb : (k == k2) = false := by
        rw [beq_eq_false_iff_ne]
        exact fun hh => h hh.symm
      simp [mapSet, h, List.lookup, hb, ih]

theorem lookup_mapSet_ne (k n : ℕ) (v : DeviceState) (m : List (ℕ × DeviceState))
    (h : n ≠ k) : (mapSet k v m).lookup n = m.lookup n := by
  have hb : (n == k) = false := beq_eq_false_iff_ne.mpr h
  induction m with
  | nil => simp [mapSet, List.lookup, hb]
  | cons kv rest ih =>
    obtain ⟨k2, v2⟩ := kv
    by_cases h2 : k2 = k
    · subst h2
      simp [mapSet, List.lookup, hb]
    · cases hb2 : n == k2 <;> simp [mapSet, h2, List.lookup, hb2, ih]

theorem lookup_mapSet_isSome (k n : ℕ) (v : DeviceState) (m : List (ℕ × DeviceState)) :
    ((mapSet k v m).lookup n).isSome = true ↔
      ((m.lookup n).isSome = true ∨ n = k) := by
  by_cases h : n = k
  · subst h
    simp [lookup_mapSet_self]
  · simp [lookup_mapSet_ne _ _ _ _ h, h]

theorem updateDevicesLoop_keys (states : List DeviceState) (m : List (ℕ × DeviceState)) (n : ℕ) :
    (((updateDevicesLoop m states).1.lookup n).isSome = true) ↔
      ((m.lookup n).isSome = true ∨ n ∈ states.map DeviceState.nodeId) := by
  induction states generalizing m with
  | nil => simp [updateDevicesLoop]
  | cons state rest ih =>
    simp only [List.map_cons, List.mem_cons]
    cases hlk : m.lookup state.nodeId with
    | some previousState =>
      cases hch : hasStateChanged previousState state with
      | true =>
        rw [show (updateDevicesLoop m (state :: rest)).1 =
            (updateDevicesLoop (mapSet state.nodeId state m) rest).1 by
          simp [updateDevicesLoop, hlk, hch]]
        rw [ih, lookup_mapSet_isSome]
        constructor
        · rintro (⟨h | h⟩ | h) <;> tauto
        · rintro (h | h | h)
          · tauto
          · subst h
            simp [hlk]
          · tauto
      | false =>
        rw [show (updateDevicesLoop m (state :: rest)).1 =
            (updateDevicesLoop m rest).1 by
          simp [updateDevicesLoop, hlk, hch]]
        rw [ih]
        constructor
        · rintro (h | h) <;> tauto
        · rintro (h | h | h)
          · tauto
          · subst h
            simp [hlk]
          · tauto
    | none =>
      rw [show (updateDevicesLoop m (state :: rest)).1 =
          (updateDevicesLoop (mapSet state.nodeId state m) rest).1 by
        simp [updateDevicesLoop, hlk]]
      rw [ih, lookup_mapSet_isSome]
      tauto

theorem updateDevicesLoop_events (states : List DeviceState) (m : List (ℕ × DeviceState)) :
    (updateDevicesLoop m states).2.all isStateChanged = true := by
  induction states generalizing m with
  | nil => simp [updateDevicesLoop]
  | cons state rest ih =>
    cases hlk : m.lookup state.nodeId with
    | some previousState =>
      cases hch : hasStateChanged previousState state with
      | true => simp [updateDevicesLoop, hlk, hch, isStateChanged, ih]
      | false => simp [updateDevicesLoop, hlk, hch, ih]
    | none => simp [updateDevicesLoop, hlk, isStateChanged, ih]

/-- C5 counterexample: with a registry holding device 5, updateDevices with the
    empty list retains device 5, although 5 does not occur among the nodeIds of
    the argument list; so the resulting mapping does not contain exactly the
    nodeIds of the argument. -/
theorem updateDevices_retains_absent :
    (((updateDevices sampleRegistry []).1.devices.lookup 5).isSome = true) ∧
    ¬ (5 ∈ ([] : List DeviceState).map DeviceState.nodeId) := by
  decide

/-- C5 (amended): updateDevices never removes devices: after the call the
    device map holds exactly the union of the previously present nodeIds and
    the nodeIds occurring in the argument list.  The emitted event trace is a
    sequence of stateChanged events (for the new-or-changed incoming states)
    followed by exactly one devicesUpdated summary event carrying the final
    device list. -/
theorem updateDevices_spec (r : RegistryState) (states : List DeviceState) :
    (∀ n, (((updateDevices r states).1.devices.lookup n).isSome = true ↔
      ((r.devices.lookup n).isSome = true ∨ n ∈ states.map DeviceState.nodeId))) ∧
    (updateDevices r states).2.getLast? =
      some (RegistryEvent.devicesUpdated (getAllDevices (updateDevices r states).1.devices)) ∧
    (updateDevices r states).2.dropLast.all isStateChanged = true ∧
    ((updateDevices r states).2.filter (fun e => ! (isStateChanged e))).length = 1 := by
  refine ⟨fun n => ?_, ?_, ?_, ?_⟩
  · rw [show (updateDevices r states).1.devices = (updateDevicesLoop r.devices states).1 from rfl]
    exact updateDevicesLoop_keys states r.devices n
  · rw [show (updateDevices r states).1.devices = (updateDevicesLoop r.devices states).1 from rfl]
    rw [show (updateDevices r states).2 =
        (updateDevicesLoop r.devices states).2 ++
          [RegistryEvent.devicesUpdated (getAllDevices (updateDevicesLoop r.devices states).1)]
        from rfl]
    simp
  · rw [show (updateDevices r states).2 =
        (updateDevicesLoop r.devices states).2 ++
          [RegistryEvent.devicesUpdated (getAllDevices (updateDevicesLoop r.devices states).1)]
        from rfl]
    rw [List.dropLast_concat]
    exact updateDevicesLoop_events states r.devices
  · rw [show (updateDevices r states).2 =
        (updateDevicesLoop r.devices states).2 ++
          [RegistryEvent.devicesUpdated (getAllDevices (updateDevicesLoop r.devices states).1)]
        from rfl]
    rw [List.filter_append]
    have hall := updateDevicesLoop_events states r.devices
    have hnil : (updateDevicesLoop r.devices states).2.filter (fun e => ! (isStateChanged e)) = [] := by
      rw [List.filter_eq_nil_iff]
      intro a ha
      have := List.all_eq_true.mp hall a ha
      simp [this]
    rw [hnil]
    simp [isStateChanged]

/- ### Persistence (DeviceRegistry.save, device-registry.ts lines 258-285) -/

inductive FSOp where
  | mkdirRecursive (path : String)
  | writeFile (path : String) (content : String)
  | rename (src dst : String)
deriving DecidableEq, Repr

def PERSISTENCE_FILE : String := "devices.json"

/-- persistPath = path.join(DATA_DIR, PERSISTENCE_FILE) (device-registry.ts line 42). -/
def persistPath (dataDir : String) : String := dataDir ++ "/" ++ PERSISTENCE_FILE

/-- DeviceRegistry.save as its sequence of filesystem operations: create the
    data directory when missing (path.dirname(persistPath) = DATA_DIR), then
    fs.writeFileSync(persistPath, JSON.stringify(data, null, 2)).  The
    serialized document is abstracted as the content argument. -/
def saveOps (dataDir : String) (dataDirExists : Bool) (content : String) : List FSOp :=
  (if dataDirExists then [] else [FSOp.mkdirRecursive dataDir]) ++
  [FSOp.writeFile (persistPath dataDir) content]

def isRename : FSOp → Bool
  | .rename _ _ => true
  | _ => false

def writesDirectly (target : String) : FSOp → Bool
  | .writeFile p _ => p == target
  | _ => false

/-- C4 counterexample: a save with the data directory present writes the
    snapshot path directly and performs no rename at all, contradicting the
    claimed temp-file-and-rename pattern. -/
theorem save_writes_in_place :
    (saveOps "data" true "doc").any (writesDirectly (persistPath "data")) = true ∧
    (saveOps "data" true "doc").any isRename = false := by
  decide

/-- C4 (amended): save never uses a temporary file or a rename: after creating
    the data directory when missing, it writes the serialized JSON document
    directly (in place) to the snapshot path with fs.writeFileSync. -/
theorem save_direct_write (dataDir : String) (dataDirExists : Bool) (content : String) :
    (saveOps dataDir dataDirExists content).any (writesDirectly (persistPath dataDir)) = true ∧
    (saveOps dataDir dataDirExists content).any isRename = false := by
  cases dataDirExists <;> simp [saveOps, writesDirectly, isRename]

/- ### Reconnect policy (KLFConnection, part_007 of src/unnamed) -/

structure ReconnectConfig where
  reconnectBaseDelay : ℕ
  reconnectMaxDelay : ℕ
deriving DecidableEq, Repr

structure ConnState where
  reconnectAttempt : ℕ
  reconnecting : Bool
  shuttingDown : Bool
  connected : Bool
deriving DecidableEq, Repr

/-- KLFConnection.scheduleReconnect (part_007 lines 482-529): bail out when
    shutting down or already reconnecting; otherwise set reconnecting, bump
    the 1-based attempt counter, and schedule after
    min(reconnectBaseDelay * 2^(attempt-1), reconnectMaxDelay). -/
def scheduleReconnect (cfg : ReconnectConfig) (s : ConnState) : ConnState × Option ℕ :=
  if s.shuttingDown || s.reconnecting then (s, none)
  else
    let s2 : ConnState :=
      { s with reconnecting := true, reconnectAttempt := s.reconnectAttempt + 1 }
    (s2, some (min (cfg.reconnectBaseDelay * 2 ^ (s2.reconnectAttempt - 1))
                   cfg.reconnectMaxDelay))

/-- The catch branch of the reconnect timer callback (part_007 lines 520-527):
    reconnecting is cleared before scheduleReconnect is called again. -/
def reconnectionFailed (s : ConnState) : ConnState := { s with reconnecting := false }

/-- KLFConnection.connect success path (part_007 lines 97-98): connected = true
    and the attempt counter is reset to 0. -/
def connectSuccess (s : ConnState) : ConnState :=
  { s with connected := true, reconnectAttempt := 0 }

/-- The delays scheduled over n consecutive failed reconnection attempts. -/
def reconnectDelays (cfg : ReconnectConfig) (s : ConnState) : ℕ → List ℕ
  | 0 => []
  | n + 1 =>
    match scheduleReconnect cfg s with
    | (s2, some d) => d :: reconnectDelays cfg (reconnectionFailed s2) n
    | (_, none) => []

theorem reconnectDelays_closed (cfg : ReconnectConfig) (c : Bool) (n : ℕ) : ∀ a : ℕ,
    reconnectDelays cfg
      { reconnectAttempt := a, reconnecting := false, shuttingDown := false, connected := c } n =
      (List.range n).map
        (fun i => min (cfg.reconnectBaseDelay * 2 ^ (a + i)) cfg.reconnectMaxDelay) := by
  induction n with
  | zero => intro a; simp [reconnectDelays]
  | succ n ih =>
    intro a
    have hstep : reconnectDelays cfg
        { reconnectAttempt := a, reconnecting := false, shuttingDown := false,
          connected := c } (n + 1) =
        min (cfg.reconnectBaseDelay * 2 ^ a) cfg.reconnectMaxDelay ::
        reconnectDelays cfg
          { reconnectAttempt := a + 1, reconnecting := false, shuttingDown := false,
            connected := c } n := by
      simp [reconnectDelays, scheduleReconnect, reconnectionFailed]
    have hfun : ((fun i => cfg.reconnectBaseDelay * 2 ^ (a + i) ⊓ cfg.reconnectMaxDelay) ∘
        Nat.succ) =
        (fun i => cfg.reconnectBaseDelay * 2 ^ (a + 1 + i) ⊓ cfg.reconnectMaxDelay) := by
      funext i
      simp only [Function.comp_apply]
      have hia : a + Nat.succ i = a + 1 + i := by omega
      rw [hia]
    rw [hstep, ih (a + 1), List.range_succ_eq_map, List.map_cons, List.map_map, hfun]
    simp

theorem chain_le_map_range (f : ℕ → ℕ) (hf : ∀ i j, i ≤ j → f i ≤ f j) (n : ℕ) :
    List.Chain' (fun a b => a ≤ b) ((List.range n).map f) := by
  have hp : ((List.range n).map f).Pairwise (fun a b => a ≤ b) :=
    (List.pairwise_lt_range n).map f (fun a b hab => hf a b (le_of_lt hab))
  exact hp.chain'

/-- C3: from a fresh connection state (attempt counter 0), the delay scheduled
    for the n-th consecutive reconnection attempt (1-based) is
    min(reconnectBaseDelay * 2^(n-1), reconnectMaxDelay); the whole delay
    sequence is base, 2*base, 4*base, ... capped at reconnectMaxDelay and
    monotonically non-decreasing; the sequence has length n for every n (no
    maximum attempt count), and a successful connect resets the counter to 0. -/
theorem reconnect_backoff_spec (cfg : ReconnectConfig) (c : Bool) (n : ℕ) :
    reconnectDelays cfg
      { reconnectAttempt := 0, reconnecting := false, shuttingDown := false,
        connected := c } n =
      (List.range n).map
        (fun i => min (cfg.reconnectBaseDelay * 2 ^ i) cfg.reconnectMaxDelay) ∧
    (reconnectDelays cfg
      { reconnectAttempt := 0, reconnecting := false, shuttingDown := false,
        connected := c } n).length = n ∧
    List.Chain' (fun a b => a ≤ b)
      (reconnectDelays cfg
        { reconnectAttempt := 0, reconnecting := false, shuttingDown := false,
          connected := c } n) ∧
    (∀ d, d ∈ reconnectDelays cfg
        { reconnectAttempt := 0, reconnecting := false, shuttingDown := false,
          connected := c } n → d ≤ cfg.reconnectMaxDelay) ∧
    (∀ s : ConnState, (connectSuccess s).reconnectAttempt = 0) := by
  have hc := reconnectDelays_closed cfg c n 0
  simp only [Nat.zero_add] at hc
  refine ⟨hc, ?_, ?_, ?_, fun s => rfl⟩
  · rw [hc]
    simp
  · rw [hc]
    apply chain_le_map_range
    intro i j hij
    exact min_le_min
      (Nat.mul_le_mul_left _ (Nat.pow_le_pow_right (by norm_num) hij)) le_rfl
  · intro d hd
    rw [hc] at hd
    obtain ⟨i, _, hdi⟩ := List.mem_map.mp hd
    rw [← hdi]
    exact min_le_right _ _

theorem reconnect_backoff_spec_witness :
    (10000 ∈ reconnectDelays { reconnectBaseDelay := 5000, reconnectMaxDelay := 300000 }
      { reconnectAttempt := 0, reconnecting := false, shuttingDown := false,
        connected := false } 3) ∧
    10000 ≤ 300000 := by
  have h := reconnect_backoff_spec
    { reconnectBaseDelay := 5000, reconnectMaxDelay := 300000 } false 3
  have hm : 10000 ∈ reconnectDelays
      { reconnectBaseDelay := 5000, reconnectMaxDelay := 300000 }
      { reconnectAttempt := 0, reconnecting := false, shuttingDown := false,
        connected := false } 3 := by
    decide
  exact ⟨hm, h.2.2.2.1 10000 hm⟩

/- ### Gateway products (klf-200-api Product, consumed by part_007) -/

/-- ACTUATOR_TYPE_MAP (src/types/index.ts lines 180-205) as a partial map. -/
def actuatorTypeMap (actuatorType : ℕ) : Option DeviceType :=
  match actuatorType with
  | 0 => some DeviceType.unknown
  | 1 => some DeviceType.blind
  | 2 => some DeviceType.shutter
  | 3 => some DeviceType.awning
  | 4 => some DeviceType.window
  | 5 => some DeviceType.garage
  | 6 => some DeviceType.unknown
  | 7 => some DeviceType.gate
  | 8 => some DeviceType.garage
  | 9 => some DeviceType.lock
  | 10 => some DeviceType.blind
  | 12 => some DeviceType.unknown
  | 13 => some DeviceType.shutter
  | 14 => some DeviceType.unknown
  | 15 => some DeviceType.unknown
  | 16 => some DeviceType.awning
  | 17 => some DeviceType.blind
  | 18 => some DeviceType.blind
  | 19 => some DeviceType.blind
  | 20 => some DeviceType.window
  | 21 => some DeviceType.unknown
  | 22 => some DeviceType.unknown
  | 23 => some DeviceType.unknown
  | 24 => some DeviceType.shutter
  | _ => none

/-- getDeviceType (src/types/index.ts lines 210-212):
    ACTUATOR_TYPE_MAP[actuatorType] || DeviceType.UNKNOWN
    (every mapped value is a truthy string, so || only catches misses). -/
def getDeviceType (actuatorType : ℕ) : DeviceType :=
  (actuatorTypeMap actuatorType).getD DeviceType.unknown

/-- The fields of a klf-200-api Product read by KLFConnection.  SerialNumber
    models product.SerialNumber?.toString(hex): none when the buffer is
    absent, some of its hex string otherwise. -/
structure Product where
  NodeID : ℕ
  Name : String
  TypeID : ℕ
  CurrentPosition : ℚ
  TargetPosition : ℚ
  RunStatus : ℕ
  State : ℕ
  StatusReply : ℕ
  LimitationMinRaw : Option (List ℚ)
  LimitationMaxRaw : Option (List ℚ)
  SerialNumber : Option String
deriving DecidableEq, Repr

/-- JS expr arr?.[0] ?? d : first element when the array exists and is
    non-empty, the default otherwise. -/
def headOrDefault (raw : Option (List ℚ)) (dflt : ℚ) : ℚ :=
  match raw with
  | some (x :: _) => x
  | _ => dflt

/-- KLFConnection.productToDeviceState (part_007 lines 379-399).  The Date
    lastUpdate is passed in as the current timestamp. -/
def productToDeviceState (product : Product) (now : ℕ) : DeviceState :=
  let limitMin := headOrDefault product.LimitationMinRaw 0
  let limitMax := headOrDefault product.LimitationMaxRaw 1
  { nodeId := product.NodeID
    name := product.Name
    type := getDeviceType product.TypeID
    position := klfPositionToPercent product.CurrentPosition
    targetPosition := klfPositionToPercent product.TargetPosition
    moving := product.RunStatus != 0
    online := product.State == 1
    error := if product.StatusReply != 0 then
        some ("Status: " ++ toString product.StatusReply)
      else none
    limitationMin := klfPositionToPercent limitMin
    limitationMax := klfPositionToPercent limitMax
    serialNumber := product.SerialNumber.getD ""
    productType := product.TypeID
    lastUpdate := now }

theorem klfPositionToPercent_intArg (q : ℚ) (z : ℤ) (h : (1 - q) * 100 = (z : ℚ)) :
    klfPositionToPercent q = z := by
  unfold klfPositionToPercent
  rw [h, jsRound_intCast]

/-- A product with no limitation arrays set: limitMin defaults to raw 0,
    limitMax to raw 1 (part_007 lines 381-382). -/
def defaultLimitsProduct : Product :=
  { NodeID := 1, Name := "Bedroom Window", TypeID := 4, CurrentPosition := 0,
    TargetPosition := 0, RunStatus := 0, State := 1, StatusReply := 0,
    LimitationMinRaw := none, LimitationMaxRaw := none, SerialNumber := none }

/-- C7 counterexample: with the default raw limitation values 0 and 1, the
    inverting conversion yields limitationMin = 100 and limitationMax = 0, so
    the claimed invariant limitationMin ≤ limitationMax fails. -/
theorem limitation_invariant_violated :
    (productToDeviceState defaultLimitsProduct 0).limitationMin = 100 ∧
    (productToDeviceState defaultLimitsProduct 0).limitationMax = 0 ∧
    ¬ ((productToDeviceState defaultLimitsProduct 0).limitationMin ≤
       (productToDeviceState defaultLimitsProduct 0).limitationMax) := by
  have hmin : (productToDeviceState defaultLimitsProduct 0).limitationMin =
      klfPositionToPercent 0 := rfl
  have hmax : (productToDeviceState defaultLimitsProduct 0).limitationMax =
      klfPositionToPercent 1 := rfl
  have h0 : klfPositionToPercent 0 = (100 : ℤ) :=
    klfPositionToPercent_intArg 0 100 (by norm_num)
  have h1 : klfPositionToPercent 1 = (0 : ℤ) :=
    klfPositionToPercent_intArg 1 0 (by norm_num)
  rw [hmin, hmax, h0, h1]
  refine ⟨rfl, rfl, by decide⟩

/-- C7 (amended): whenever the raw limitation values (after defaulting to 0
    and 1) lie in [0,1] in the order rawMin ≤ rawMax, the produced device
    state satisfies 0 ≤ limitationMax ≤ limitationMin ≤ 100: both bounds land
    in [0,100], but the inverting codec swaps their order, so it is
    limitationMax ≤ limitationMin that holds (limitationMin ≤ limitationMax
    fails already for the defaults). -/
theorem productToDeviceState_limits (product : Product) (now : ℕ)
    (h0 : 0 ≤ headOrDefault product.LimitationMinRaw 0)
    (h1 : headOrDefault product.LimitationMinRaw 0 ≤
          headOrDefault product.LimitationMaxRaw 1)
    (h2 : headOrDefault product.LimitationMaxRaw 1 ≤ 1) :
    0 ≤ (productToDeviceState product now).limitationMax ∧
    (productToDeviceState product now).limitationMax ≤
      (productToDeviceState product now).limitationMin ∧
    (productToDeviceState product now).limitationMin ≤ 100 := by
  have hmin : (productToDeviceState product now).limitationMin =
      klfPositionToPercent (headOrDefault product.LimitationMinRaw 0) := rfl
  have hmax : (productToDeviceState product now).limitationMax =
      klfPositionToPercent (headOrDefault product.LimitationMaxRaw 1) := rfl
  rw [hmin, hmax]
  refine ⟨?_, ?_, ?_⟩
  · exact (klfPositionToPercent_bounds (le_trans h0 h1) h2).1
  · exact klfPositionToPercent_anti h1
  · exact (klfPositionToPercent_bounds h0 (le_trans h1 h2)).2

theorem productToDeviceState_limits_witness :
    0 ≤ (productToDeviceState defaultLimitsProduct 0).limitationMax ∧
    (productToDeviceState defaultLimitsProduct 0).limitationMax ≤
      (productToDeviceState defaultLimitsProduct 0).limitationMin ∧
    (productToDeviceState defaultLimitsProduct 0).limitationMin ≤ 100 :=
  productToDeviceState_limits defaultLimitsProduct 0 (by decide) (by decide) (by decide)

/- ### setDevicePosition (KLFConnection, part_007 lines 253-287) -/

inductive KLFError where
  | notConnected
  | unknownNode (nodeId : ℕ)
deriving DecidableEq, Repr

/-- The command issued to the gateway: product.setTargetPositionAsync(klfPosition). -/
structure IssuedCommand where
  nodeId : ℕ
  klfPosition : ℚ
deriving DecidableEq, Repr

/-- KLFConnection.setDevicePosition: error when products is null or not
    connected; error when no product has the requested NodeID; otherwise clamp
    to [0,100] with Math.max(0, Math.min(100, position)), convert with
    percentToKlfPosition and issue the set-target-position command. -/
def setDevicePosition (products : Option (List Product)) (connected : Bool)
    (nodeId : ℕ) (position : ℚ) : Except KLFError IssuedCommand :=
  match products, connected with
  | none, _ => Except.error KLFError.notConnected
  | some _, false => Except.error KLFError.notConnected
  | some ps, true =>
    match ps.find? (fun p => p.NodeID == nodeId) with
    | none => Except.error (KLFError.unknownNode nodeId)
    | some _ =>
      let clampedPosition := max 0 (min 100 position)
      Except.ok { nodeId := nodeId, klfPosition := percentToKlfPosition clampedPosition }

/-- C9: setDevicePosition fails with notConnected whenever the session is not
    connected (or no product list exists), fails with unknownNode when no
    discovered product matches, and otherwise issues exactly one
    set-target-position command for the clamped percentage converted via
    1 - pct/100; the clamped value lies in [0,100] and equals pct when pct
    already lies in [0,100].  Errors issue no command. -/
theorem setDevicePosition_spec (products : Option (List Product)) (connected : Bool)
    (nodeId : ℕ) (position : ℚ) :
    (connected = false → setDevicePosition products connected nodeId position =
      Except.error KLFError.notConnected) ∧
    (products = none → setDevicePosition products connected nodeId position =
      Except.error KLFError.notConnected) ∧
    (∀ ps, products = some ps → connected = true →
      (ps.find? (fun p => p.NodeID == nodeId) = none →
        setDevicePosition products connected nodeId position =
          Except.error (KLFError.unknownNode nodeId)) ∧
      ((ps.find? (fun p => p.NodeID == nodeId)).isSome = true →
        setDevicePosition products connected nodeId position =
          Except.ok { nodeId := nodeId,
                      klfPosition := 1 - (max 0 (min 100 position)) / 100 } ∧
        0 ≤ max 0 (min 100 position) ∧ max 0 (min 100 position) ≤ 100 ∧
        (0 ≤ position → position ≤ 100 → max 0 (min 100 position) = position))) := by
  refine ⟨?_, ?_, ?_⟩
  · intro hc
    subst hc
    cases products <;> simp [setDevicePosition]
  · intro hp
    subst hp
    cases connected <;> simp [setDevicePosition]
  · intro ps hp hc
    subst hp
    subst hc
    constructor
    · intro hf
      simp [setDevicePosition, hf]
    · intro hf
      obtain ⟨prod, hprod⟩ := Option.isSome_iff_exists.mp hf
      refine ⟨by simp [setDevicePosition, hprod, percentToKlfPosition], ?_, ?_, ?_⟩
      · exact le_max_left 0 _
      · exact max_le (by norm_num) (min_le_left 100 position)
      · intro hlo hhi
        rw [min_eq_right hhi, max_eq_right hlo]

theorem setDevicePosition_spec_witness :
    setDevicePosition (some [defaultLimitsProduct]) true 1 150 =
      Except.ok { nodeId := 1, klfPosition := 1 - (max 0 (min 100 (150 : ℚ))) / 100 } := by
  have h := (setDevicePosition_spec (some [defaultLimitsProduct]) true 1 150).2.2
    [defaultLimitsProduct] rfl rfl
  exact (h.2 (by decide)).1

/- ### MQTT command parsing (src/lib/mqtt-bridge.ts) -/

/-- DeviceCommand (src/types/index.ts line 155). -/
inductive DeviceCommand where
  | cmdOpen
  | cmdClose
  | cmdStop
  | cmdPosition (value : ℤ)
deriving DecidableEq, Repr

def digitsToNat (digits : List Char) : ℕ :=
  digits.foldl (fun acc c => acc * 10 + (c.toNat - 48)) 0

/-- JS parseInt(s, 10): skip leading whitespace, read an optional sign, then
    the longest decimal-digit prefix; NaN (none) when no digit follows. -/
def parseIntJs (s : String) : Option ℤ :=
  let cs := s.data.dropWhile Char.isWhitespace
  let signRest : ℤ × List Char :=
    match cs with
    | '-' :: r => (-1, r)
    | '+' :: r => (1, r)
    | r => (1, r)
  let digits := signRest.2.takeWhile Char.isDigit
  if digits.isEmpty then none
  else some (signRest.1 * (digitsToNat digits : ℤ))

/-- JS String.toLowerCase, character-wise. -/
def jsToLower (s : String) : String := String.mk (s.data.map Char.toLower)

/-- JS String.trim: strip whitespace from both ends. -/
def jsTrim (s : String) : String :=
  String.mk (((s.data.dropWhile Char.isWhitespace).reverse.dropWhile
    Char.isWhitespace).reverse)

/-- MQTTBridge.parseDeviceCommand (mqtt-bridge.ts lines 265-287):
    cmd = payload.toLowerCase().trim(); keyword match; otherwise
    parseInt(payload, 10), accepted when in [0,100]; else null (discard). -/
def parseDeviceCommand (payload : String) : Option DeviceCommand :=
  let cmd := jsTrim (jsToLower payload)
  if cmd = "open" then some DeviceCommand.cmdOpen
  else if cmd = "close" then some DeviceCommand.cmdClose
  else if cmd = "stop" then some DeviceCommand.cmdStop
  else
    match parseIntJs payload with
    | some p =>
      if 0 ≤ p ∧ p ≤ 100 then some (DeviceCommand.cmdPosition p) else none
    | none => none

/-- MQTTBridge.handleMessage, position/set branch (mqtt-bridge.ts lines
    218-226): parseInt(payload, 10); emit the integer only when in [0,100]. -/
def handlePositionSet (payload : String) : Option ℤ :=
  match parseIntJs payload with
  | some p => if 0 ≤ p ∧ p ≤ 100 then some p else none
  | none => none

/-- The closed command set of the spec: open, close, stop, or an integer in
    [0,100]; none means the payload was discarded without an event. -/
def commandInClosedSet : Option DeviceCommand → Prop
  | none => True
  | some DeviceCommand.cmdOpen => True
  | some DeviceCommand.cmdClose => True
  | some DeviceCommand.cmdStop => True
  | some (DeviceCommand.cmdPosition p) => 0 ≤ p ∧ p ≤ 100

def positionInRange : Option ℤ → Prop
  | none => True
  | some p => 0 ≤ p ∧ p ≤ 100

/-- C10: parseDeviceCommand only ever yields open, close, stop or an integer
    in [0,100] (anything else is discarded as none); keyword matching is
    case-insensitive modulo trimming; the dedicated position/set topic handler
    likewise emits only integers in [0,100]. -/
theorem parseDeviceCommand_closed_set (payload : String) :
    commandInClosedSet (parseDeviceCommand payload) ∧
    positionInRange (handlePositionSet payload) ∧
    (jsTrim (jsToLower payload) = "open" →
      parseDeviceCommand payload = some DeviceCommand.cmdOpen) ∧
    (jsTrim (jsToLower payload) = "close" →
      parseDeviceCommand payload = some DeviceCommand.cmdClose) ∧
    (jsTrim (jsToLower payload) = "stop" →
      parseDeviceCommand payload = some DeviceCommand.cmdStop) := by
  refine ⟨?_, ?_, ?_, ?_, ?_⟩
  · unfold parseDeviceCommand
    by_cases h1 : jsTrim (jsToLower payload) = "open"
    · simp [h1, commandInClosedSet]
    · by_cases h2 : jsTrim (jsToLower payload) = "close"
      · simp [h1, h2, commandInClosedSet]
      · by_cases h3 : jsTrim (jsToLower payload) = "stop"
        · simp [h1, h2, h3, commandInClosedSet]
        · simp only [h1, h2, h3, if_false]
          cases hp : parseIntJs payload with
          | some p =>
            by_cases hr : 0 ≤ p ∧ p ≤ 100
            · simp [hp, hr, commandInClosedSet]
            · simp [hp, hr, commandInClosedSet]
          | none => simp [hp, commandInClosedSet]
  · unfold handlePositionSet
    cases hp : parseIntJs payload with
    | some p =>
      by_cases hr : 0 ≤ p ∧ p ≤ 100
      · simp [hr, positionInRange]
      · simp [hr, positionInRange]
    | none => simp [positionInRange]
  · intro h
    simp [parseDeviceCommand, h]
  · intro h
    simp [parseDeviceCommand, h]
  · intro h
    simp [parseDeviceCommand, h]

theorem parseDeviceCommand_closed_set_witness :
    parseDeviceCommand "  OPEN " = some DeviceCommand.cmdOpen := by
  have h := (parseDeviceCommand_closed_set "  OPEN ").2.2.1
  exact h (by decide)

end LoxberryVelux
